import Mathlib

/-!
Verification of the spaced-repetition scheduling engine of the ai-phrase
repository: a shallow embedding of the scheduling strategies
(anki-sm2-strategy.ts, leitner-strategy.ts), the algorithm factory
(algorithm-factory.ts), the queue manager (queue-manager.ts) and the
learning session (learning-session.ts), together with theorems settling
the spec claims about them.

Numbers are modelled by rationals (JS numbers), timestamps by rationals
counting milliseconds since the epoch on a uniform UTC timeline, and a JS
value that can be undefined by an Option. An out-of-bounds JS array read
yields none, mirroring undefined.
-/

namespace AiPhrase

attribute [local semireducible] Rat.add Rat.mul Rat.sub Rat.inv Rat.ofScientific

/-- The floor of a rational, computed by first principles so that kernel
reduction works on concrete inputs. -/
def ratFloor (q : ℚ) : ℤ := Int.fdiv q.num (q.den : ℤ)

/-- The ceiling of a rational, computed by first principles. -/
def ratCeil (q : ℚ) : ℤ := -(ratFloor (-q))

/-- Math.min on two numbers. -/
def jsMin (a b : ℚ) : ℚ := if a ≤ b then a else b

/-- Math.max on two numbers. -/
def jsMax (a b : ℚ) : ℚ := if a ≤ b then b else a

/-- Math.round for JS: round half toward positive infinity. -/
def jsRound (q : ℚ) : ℤ := ratFloor (q + 1/2)

/-- JS array read arr[i] for an integer index: undefined (none) when the
index is negative or past the end. -/
def jsIndex (l : List ℚ) (i : ℤ) : Option ℚ :=
  if 0 ≤ i then l.get? i.toNat else none

/-- JS array read arr[q] for a possibly fractional numeric index:
undefined unless q is a non-negative integer within bounds. -/
def jsIndexQ (l : List ℚ) (q : ℚ) : Option ℚ :=
  if q.den = 1 then jsIndex l q.num else none

/-- addMinutes of the strategies: date.getTime() + minutes * 60 * 1000. -/
def addMinutes (t m : ℚ) : ℚ := t + m * 60 * 1000

/-- addDays of the strategies: setDate(getDate() + days), modelled on a
uniform UTC timeline as adding days * 86400000 milliseconds. -/
def addDays (t d : ℚ) : ℚ := t + d * 86400000

/-- CardStatus from spaced-repetition-strategy.ts. -/
inductive CardStatus
  | new
  | learning
  | review
  | suspended
deriving DecidableEq, Repr

/-- UserResponse from spaced-repetition-strategy.ts. -/
inductive UserResponse
  | again
  | hard
  | good
  | easy
deriving DecidableEq, Repr

/-- The string literal a response is written as in the source. -/
def UserResponse.asString : UserResponse → String
  | .again => "again"
  | .hard => "hard"
  | .good => "good"
  | .easy => "easy"

/-- A value stored in the algorithm_data bag: a string, a number, or an
ISO timestamp string rendered from the millisecond clock value t. -/
inductive JsVal
  | str (s : String)
  | num (q : ℚ)
  | time (t : ℚ)
deriving DecidableEq, Repr

/-- The extensible algorithm_data object: each key holds a value or is
absent. -/
def AlgData : Type := String → Option JsVal

/-- The empty algorithm_data object. -/
def AlgData.empty : AlgData := fun _ => none

/-- A one-binding algorithm_data object. -/
def AlgData.single (key : String) (v : JsVal) : AlgData :=
  fun k => if k = key then some v else none

/-- Object spread where every key of old wins over fresh: the literal
written as fresh fields followed by spreading the old object. -/
def spreadOver (fresh old : AlgData) : AlgData :=
  fun k =>
    match old k with
    | some v => some v
    | none => fresh k

/-- CardData from spaced-repetition-strategy.ts. Times are parsed
millisecond values of the stored ISO strings. -/
structure CardData where
  id : String
  status : CardStatus
  ease_factor : ℚ
  interval : ℚ
  repetitions : ℤ
  due_date : ℚ
  last_review : Option ℚ
  algorithm_data : AlgData

/-- CardUpdateResult from spaced-repetition-strategy.ts. interval and
due_date are none when the computation produced undefined (out-of-bounds
step lookup) and the invalid date derived from it. -/
structure CardUpdateResult where
  status : CardStatus
  ease_factor : ℚ
  interval : Option ℚ
  repetitions : ℤ
  due_date : Option ℚ
  graduated_today : Bool
  algorithm_data : AlgData

/-- validateCard of the strategy base class. The typed embedding renders
the typeof checks true by construction; the id truthiness check remains. -/
def validateCard (card : CardData) : Bool := card.id ≠ ""

/-- AnkiLearningSteps from anki-sm2-strategy.ts. -/
structure AnkiLearningSteps where
  initial : List ℚ
  relearning : List ℚ
  graduating_interval : ℚ
  easy_interval : ℚ
deriving DecidableEq, Repr

/-- AnkiConfig from anki-sm2-strategy.ts. -/
structure AnkiConfig where
  learning_steps : AnkiLearningSteps
  max_ease_factor : ℚ
  min_ease_factor : ℚ
  ease_bonus : ℚ
  hard_multiplier : ℚ
  new_interval_multiplier : ℚ
deriving DecidableEq, Repr

/-- DEFAULT_ANKI_CONFIG from anki-sm2-strategy.ts. -/
def DEFAULT_ANKI_CONFIG : AnkiConfig :=
  { learning_steps :=
      { initial := [1, 10]
        relearning := [10]
        graduating_interval := 1
        easy_interval := 4 }
    max_ease_factor := 5/2
    min_ease_factor := 13/10
    ease_bonus := 3/20
    hard_multiplier := 6/5
    new_interval_multiplier := 1 }

/-- The freshly computed algorithm_data entries of
AnkiSM2Strategy.calculateNextReview, before the old bag is spread over
them. -/
def ankiFreshData (response : UserResponse) (t : ℚ) : AlgData :=
  fun k =>
    if k = "algorithm_name" then some (.str "anki-sm2")
    else if k = "algorithm_version" then some (.str "2.1.0")
    else if k = "last_response" then some (.str response.asString)
    else if k = "response_time" then some (.time t)
    else none

/-- The result record initialized at the top of
AnkiSM2Strategy.calculateNextReview. -/
def ankiBaseResult (card : CardData) (response : UserResponse) (t : ℚ) :
    CardUpdateResult :=
  { status := card.status
    ease_factor := card.ease_factor
    interval := some card.interval
    repetitions := card.repetitions
    due_date := some t
    graduated_today := false
    algorithm_data := spreadOver (ankiFreshData response t) card.algorithm_data }

/-- handleNewCard of AnkiSM2Strategy. -/
def handleNewCard (cfg : AnkiConfig) (result : CardUpdateResult)
    (response : UserResponse) (t : ℚ) : CardUpdateResult :=
  let steps := cfg.learning_steps
  match response with
  | .again =>
    let i := jsIndex steps.initial 0
    { result with status := .learning, interval := i, due_date := i.map (addMinutes t) }
  | .hard =>
    let i := jsIndex steps.initial 0
    { result with status := .learning, interval := i, due_date := i.map (addMinutes t) }
  | .good =>
    let i := jsIndex steps.initial 0
    { result with status := .learning, interval := i, due_date := i.map (addMinutes t) }
  | .easy =>
    { result with
        status := .review
        interval := some steps.easy_interval
        ease_factor := jsMin (result.ease_factor + cfg.ease_bonus) cfg.max_ease_factor
        repetitions := 1
        due_date := some (addDays t steps.easy_interval)
        graduated_today := true }

/-- getCurrentLearningStepIndex of AnkiSM2Strategy: findIndex over the
concatenation of the initial and relearning step lists, -1 when absent. -/
def getCurrentLearningStepIndex (cfg : AnkiConfig) (currentInterval : ℚ) : ℤ :=
  let allSteps := cfg.learning_steps.initial ++ cfg.learning_steps.relearning
  match allSteps.findIdx? (fun step => step == currentInterval) with
  | some i => (i : ℤ)
  | none => -1

/-- handleLearningCard of AnkiSM2Strategy. -/
def handleLearningCard (cfg : AnkiConfig) (card : CardData)
    (result : CardUpdateResult) (response : UserResponse) (t : ℚ) :
    CardUpdateResult :=
  let currentStepIndex := getCurrentLearningStepIndex cfg card.interval
  let isRelearning := decide (0 < card.repetitions)
  let steps :=
    if isRelearning then cfg.learning_steps.relearning
    else cfg.learning_steps.initial
  match response with
  | .again =>
    let i := jsIndex steps 0
    { result with
        interval := i
        due_date := i.map (addMinutes t)
        ease_factor :=
          if isRelearning then
            jsMax cfg.min_ease_factor (card.ease_factor - 1/5)
          else result.ease_factor }
  | .hard =>
    let hardStepIndex := max 0 currentStepIndex
    let i := jsIndex steps hardStepIndex
    { result with interval := i, due_date := i.map (addMinutes t) }
  | .good =>
    let nextStepIndex := currentStepIndex + 1
    if nextStepIndex < (steps.length : ℤ) then
      let i := jsIndex steps nextStepIndex
      { result with interval := i, due_date := i.map (addMinutes t) }
    else
      { result with
          status := .review
          interval := some cfg.learning_steps.graduating_interval
          repetitions := if isRelearning then card.repetitions else 1
          due_date := some (addDays t cfg.learning_steps.graduating_interval)
          graduated_today := true }
  | .easy =>
    { result with
        status := .review
        interval := some cfg.learning_steps.easy_interval
        ease_factor := jsMin (result.ease_factor + cfg.ease_bonus) cfg.max_ease_factor
        repetitions := if isRelearning then card.repetitions else 1
        due_date := some (addDays t cfg.learning_steps.easy_interval)
        graduated_today := true }

/-- handleReviewCard of AnkiSM2Strategy. -/
def handleReviewCard (cfg : AnkiConfig) (card : CardData)
    (result : CardUpdateResult) (response : UserResponse) (t : ℚ) :
    CardUpdateResult :=
  match response with
  | .again =>
    let i := jsIndex cfg.learning_steps.relearning 0
    { result with
        status := .learning
        interval := i
        ease_factor := jsMax cfg.min_ease_factor (card.ease_factor - 1/5)
        due_date := i.map (addMinutes t) }
  | .hard =>
    let i : ℚ := ((max 1 (jsRound (card.interval * cfg.hard_multiplier)) : ℤ) : ℚ)
    { result with
        ease_factor := jsMax cfg.min_ease_factor (card.ease_factor - cfg.ease_bonus)
        interval := some i
        repetitions := card.repetitions + 1
        due_date := some (addDays t i) }
  | .good =>
    let i : ℚ :=
      if card.repetitions = 0 then 1
      else if card.repetitions = 1 then 6
      else ((jsRound (card.interval * card.ease_factor * cfg.new_interval_multiplier) : ℤ) : ℚ)
    { result with
        interval := some i
        repetitions := card.repetitions + 1
        due_date := some (addDays t i) }
  | .easy =>
    let i : ℚ :=
      if card.repetitions = 0 then 4
      else ((jsRound (card.interval * card.ease_factor * (13/10) * cfg.new_interval_multiplier) : ℤ) : ℚ)
    { result with
        ease_factor := jsMin cfg.max_ease_factor (card.ease_factor + cfg.ease_bonus)
        interval := some i
        repetitions := card.repetitions + 1
        due_date := some (addDays t i) }

/-- AnkiSM2Strategy.calculateNextReview. Throwing on invalid card data is
an Except error. -/
def ankiCalculateNextReview (cfg : AnkiConfig) (card : CardData)
    (response : UserResponse) (t : ℚ) : Except String CardUpdateResult :=
  if validateCard card = false then .error "Invalid card data"
  else
    let result := ankiBaseResult card response t
    match card.status with
    | .new => .ok (handleNewCard cfg result response t)
    | .learning => .ok (handleLearningCard cfg card result response t)
    | .review => .ok (handleReviewCard cfg card result response t)
    | .suspended => .ok result

/-- LeitnerConfig from leitner-strategy.ts. Box numbers are JS numbers,
so they are modelled as rationals. -/
structure LeitnerConfig where
  box_count : ℚ
  box_intervals : List ℚ
  promote_on_success : Bool
  demote_on_failure : Bool
  graduated_box : ℚ
deriving DecidableEq, Repr

/-- DEFAULT_LEITNER_CONFIG from leitner-strategy.ts. -/
def DEFAULT_LEITNER_CONFIG : LeitnerConfig :=
  { box_count := 5
    box_intervals := [1, 3, 7, 14, 30]
    promote_on_success := true
    demote_on_failure := true
    graduated_box := 4 }

/-- The LeitnerStrategy constructor validation: box_intervals length must
match box_count, else it throws. -/
def mkLeitnerStrategy (cfg : LeitnerConfig) : Except String LeitnerConfig :=
  if (cfg.box_intervals.length : ℚ) ≠ cfg.box_count then
    .error "Box intervals length must match box count"
  else .ok cfg

/-- getCurrentBox of LeitnerStrategy: the stored leitner_box when it is a
number within range, else the first box whose interval covers the card
interval, else box 1. -/
def getCurrentBox (cfg : LeitnerConfig) (card : CardData) : ℚ :=
  let fallback :=
    match cfg.box_intervals.findIdx? (fun iv => card.interval ≤ iv) with
    | some i => ((i : ℕ) : ℚ) + 1
    | none => 1
  match card.algorithm_data "leitner_box" with
  | some (.num box) =>
    if 1 ≤ box ∧ box ≤ cfg.box_count then box else fallback
  | _ => fallback

/-- calculateNextBox of LeitnerStrategy. -/
def calculateNextBox (cfg : LeitnerConfig) (currentBox : ℚ)
    (response : UserResponse) : ℚ :=
  let isCorrect := response = .good ∨ response = .easy
  let isIncorrect := response = .again
  if isCorrect ∧ cfg.promote_on_success then
    if response = .easy then jsMin (currentBox + 2) cfg.box_count
    else jsMin (currentBox + 1) cfg.box_count
  else if isIncorrect ∧ cfg.demote_on_failure then 1
  else if response = .hard then jsMax 1 (currentBox - 1)
  else currentBox

/-- calculateStatus of LeitnerStrategy. -/
def calculateStatus (cfg : LeitnerConfig) (box : ℚ) : CardStatus :=
  if box = 1 then .new
  else if box < cfg.graduated_box then .learning
  else .review

/-- The numeric value of an algorithm_data entry read with a falsy
fallback of 0, as in data?.success_count or 0. -/
def numOrZero (v : Option JsVal) : ℚ :=
  match v with
  | some (.num q) => q
  | _ => 0

/-- updateSuccessCount of LeitnerStrategy. -/
def updateSuccessCount (card : CardData) (response : UserResponse) : ℚ :=
  let currentCount := numOrZero (card.algorithm_data "success_count")
  if response = .good ∨ response = .easy then currentCount + 1 else currentCount

/-- updateFailureCount of LeitnerStrategy. -/
def updateFailureCount (card : CardData) (response : UserResponse) : ℚ :=
  let currentCount := numOrZero (card.algorithm_data "failure_count")
  if response = .again then currentCount + 1 else currentCount

/-- The freshly computed algorithm_data entries of
LeitnerStrategy.calculateNextReview, before the old bag is spread over
them. -/
def leitnerFreshData (card : CardData) (response : UserResponse) (t : ℚ)
    (currentBox nextBox : ℚ) : AlgData :=
  fun k =>
    if k = "algorithm_name" then some (.str "leitner")
    else if k = "algorithm_version" then some (.str "1.0.0")
    else if k = "leitner_box" then some (.num nextBox)
    else if k = "previous_box" then some (.num currentBox)
    else if k = "last_response" then some (.str response.asString)
    else if k = "response_time" then some (.time t)
    else if k = "success_count" then some (.num (updateSuccessCount card response))
    else if k = "failure_count" then some (.num (updateFailureCount card response))
    else none

/-- LeitnerStrategy.calculateNextReview. -/
def leitnerCalculateNextReview (cfg : LeitnerConfig) (card : CardData)
    (response : UserResponse) (t : ℚ) : Except String CardUpdateResult :=
  if validateCard card = false then .error "Invalid card data"
  else
    let currentBox := getCurrentBox cfg card
    let nextBox := calculateNextBox cfg currentBox response
    let nextInterval := jsIndexQ cfg.box_intervals (nextBox - 1)
    let nextStatus := calculateStatus cfg nextBox
    .ok
      { status := nextStatus
        ease_factor := 5/2
        interval := nextInterval
        repetitions := card.repetitions + 1
        due_date := nextInterval.map (addDays t)
        graduated_today :=
          decide (currentBox < cfg.graduated_box ∧ cfg.graduated_box ≤ nextBox)
        algorithm_data :=
          spreadOver (leitnerFreshData card response t currentBox nextBox)
            card.algorithm_data }

/-- AlgorithmType from algorithm-factory.ts. -/
inductive AlgorithmType
  | ankiSm2
  | leitner
  | simpleInterval
  | fsrs
deriving DecidableEq, Repr

/-- A supplied algorithm configuration: the untyped config bag restricted
to the keys the registered algorithms read, each possibly absent. -/
structure SuppliedConfig where
  learning_steps : Option AnkiLearningSteps
  max_ease_factor : Option ℚ
  min_ease_factor : Option ℚ
  ease_bonus : Option ℚ
  hard_multiplier : Option ℚ
  new_interval_multiplier : Option ℚ
  box_count : Option ℚ
  box_intervals : Option (List ℚ)
  promote_on_success : Option Bool
  demote_on_failure : Option Bool
  graduated_box : Option ℚ
deriving DecidableEq, Repr

/-- The empty supplied configuration (no keys present). -/
def SuppliedConfig.empty : SuppliedConfig :=
  { learning_steps := none
    max_ease_factor := none
    min_ease_factor := none
    ease_bonus := none
    hard_multiplier := none
    new_interval_multiplier := none
    box_count := none
    box_intervals := none
    promote_on_success := none
    demote_on_failure := none
    graduated_box := none }

/-- Spreading a supplied configuration over the Anki defaults, as done by
the factory merge and the AnkiSM2Strategy constructor. -/
def mergeAnkiConfig (cfg : SuppliedConfig) : AnkiConfig :=
  { learning_steps := cfg.learning_steps.getD DEFAULT_ANKI_CONFIG.learning_steps
    max_ease_factor := cfg.max_ease_factor.getD DEFAULT_ANKI_CONFIG.max_ease_factor
    min_ease_factor := cfg.min_ease_factor.getD DEFAULT_ANKI_CONFIG.min_ease_factor
    ease_bonus := cfg.ease_bonus.getD DEFAULT_ANKI_CONFIG.ease_bonus
    hard_multiplier := cfg.hard_multiplier.getD DEFAULT_ANKI_CONFIG.hard_multiplier
    new_interval_multiplier :=
      cfg.new_interval_multiplier.getD DEFAULT_ANKI_CONFIG.new_interval_multiplier }

/-- Spreading a supplied configuration over the Leitner defaults. -/
def mergeLeitnerConfig (cfg : SuppliedConfig) : LeitnerConfig :=
  { box_count := cfg.box_count.getD DEFAULT_LEITNER_CONFIG.box_count
    box_intervals := cfg.box_intervals.getD DEFAULT_LEITNER_CONFIG.box_intervals
    promote_on_success :=
      cfg.promote_on_success.getD DEFAULT_LEITNER_CONFIG.promote_on_success
    demote_on_failure :=
      cfg.demote_on_failure.getD DEFAULT_LEITNER_CONFIG.demote_on_failure
    graduated_box := cfg.graduated_box.getD DEFAULT_LEITNER_CONFIG.graduated_box }

/-- A constructed strategy instance: its algorithm together with its
merged configuration. -/
inductive Strategy
  | anki (cfg : AnkiConfig)
  | leitner (cfg : LeitnerConfig)
deriving DecidableEq, Repr

/-- The construction function stored in a registry entry: the factory
closure of registerDefaultAlgorithms for that type. The simple-interval
entry throws: it is a placeholder that is not yet implemented. -/
def registryFactory (type : AlgorithmType) (cfg : SuppliedConfig) :
    Except String Strategy :=
  match type with
  | .ankiSm2 => .ok (.anki (mergeAnkiConfig cfg))
  | .leitner => (mkLeitnerStrategy (mergeLeitnerConfig cfg)).map .leitner
  | .simpleInterval => .error "Simple Interval algorithm not yet implemented"
  | .fsrs => .error "unreachable: fsrs has no registry entry"

/-- Whether the default factory registry of registerDefaultAlgorithms has
an entry for a type: fsrs is declared in AlgorithmType but never
registered. -/
def registered (type : AlgorithmType) : Bool :=
  match type with
  | .ankiSm2 => true
  | .leitner => true
  | .simpleInterval => true
  | .fsrs => false

/-- The registered name string of each registry entry. -/
def registryName (type : AlgorithmType) : String :=
  match type with
  | .ankiSm2 => "anki-sm2"
  | .leitner => "leitner"
  | .simpleInterval => "simple-interval"
  | .fsrs => "fsrs"

/-- AlgorithmFactory.createAlgorithm: error for an unregistered type,
else the registered factory applied to the supplied config merged over
the defaults (the merge is absorbed by the strategy constructors, which
spread the same defaults again). -/
def createAlgorithm (type : AlgorithmType) (config : Option SuppliedConfig) :
    Except String Strategy :=
  if registered type = false then
    .error ("Algorithm not registered")
  else
    registryFactory type (config.getD SuppliedConfig.empty)

/-- AlgorithmFactory.getAlgorithmByName over the default registry. -/
def getAlgorithmByName (name : String) : Option AlgorithmType :=
  if name = "anki-sm2" then some .ankiSm2
  else if name = "leitner" then some .leitner
  else if name = "simple-interval" then some .simpleInterval
  else none

/-- AlgorithmFactory.createFromPersistedData: look up by name; when
absent, warn and fall back to createAlgorithm of anki-sm2; when present,
delegate to createAlgorithm of the found type (the version mismatch only
warns). -/
def createFromPersistedData (algorithmName : String)
    (_algorithmVersion : String) (config : SuppliedConfig) :
    Except String Strategy :=
  match getAlgorithmByName algorithmName with
  | none => createAlgorithm .ankiSm2 (some config)
  | some type => createAlgorithm type (some config)

/-- A flashcards table row, restricted to the fields the queue manager
reads. Times are parsed millisecond values. -/
structure FlashcardRow where
  id : String
  status : CardStatus
  ease_factor : ℚ
  interval : ℚ
  repetitions : ℤ
  due_date : ℚ
  created_at : ℚ
deriving DecidableEq, Repr

/-- A card ordering choice of QueueConfig. -/
inductive SortOrder
  | created
  | due
  | interval
  | random
deriving DecidableEq, Repr

/-- QueueConfig from queue-manager.ts. -/
structure QueueConfig where
  maxNewCardsPerDay : ℕ
  maxReviewCardsPerDay : ℕ
  learningAheadLimit : ℚ
  reviewAheadLimit : ℚ
  newCardOrder : SortOrder
  reviewCardOrder : SortOrder
deriving DecidableEq, Repr

/-- DailyQueue from queue-manager.ts. -/
structure DailyQueue where
  newCards : List FlashcardRow
  learningCards : List FlashcardRow
  reviewCards : List FlashcardRow
  totalCards : ℕ
  estimatedStudyTime : ℤ
deriving DecidableEq, Repr

/-- setHours(23, 59, 59, 999) on the uniform UTC timeline: the last
millisecond of the day containing t. -/
def endOfDay (t : ℚ) : ℚ := (ratFloor (t / 86400000) : ℚ) * 86400000 + 86399999

/-- QueueManager.filterDueCards. The ahead limit argument is optional and
a supplied 0 is falsy, falling back to the end-of-day cutoff. -/
def filterDueCards (cards : List FlashcardRow) (t : ℚ)
    (aheadLimitMinutes : Option ℚ) : List FlashcardRow :=
  let cutoffTime :=
    match aheadLimitMinutes with
    | some m => if m = 0 then endOfDay t else t + m * 60 * 1000
    | none => endOfDay t
  cards.filter (fun card => decide (card.due_date ≤ cutoffTime))

/-- QueueManager.sortCards. The engine sort is stable, so it is modelled
by a stable structural sort on the comparator key; the random order
delegates to the engine sort driven by Math.random, abstracted as a
shuffle function, and the engine guarantees the output is a
rearrangement of the input. -/
def sortCards (shuffle : List FlashcardRow → List FlashcardRow)
    (cards : List FlashcardRow) (order : SortOrder) : List FlashcardRow :=
  match order with
  | .created => List.insertionSort (fun a b => a.created_at ≤ b.created_at) cards
  | .due => List.insertionSort (fun a b => a.due_date ≤ b.due_date) cards
  | .interval => List.insertionSort (fun a b => a.interval ≤ b.interval) cards
  | .random => shuffle cards

/-- QueueManager.estimateStudyTime: per-type second costs summed and
converted to minutes with Math.ceil. -/
def estimateStudyTime (newCount learningCount reviewCount : ℕ) : ℤ :=
  ratCeil (((newCount : ℚ) * 30 + (learningCount : ℚ) * 20 + (reviewCount : ℚ) * 15) / 60)

/-- QueueManager.generateDailyQueue. -/
def generateDailyQueue (shuffle : List FlashcardRow → List FlashcardRow)
    (cards : List FlashcardRow) (config : QueueConfig) (t : ℚ) : DailyQueue :=
  let newCards := cards.filter (fun card => card.status == .new)
  let learningCards := cards.filter (fun card => card.status == .learning)
  let reviewCards := cards.filter (fun card => card.status == .review)
  let dueNewCards := filterDueCards newCards t none
  let dueLearningCards := filterDueCards learningCards t (some config.learningAheadLimit)
  let dueReviewCards :=
    filterDueCards reviewCards t (some (config.reviewAheadLimit * 24 * 60))
  let sortedNewCards := sortCards shuffle dueNewCards config.newCardOrder
  let sortedLearningCards := sortCards shuffle dueLearningCards .due
  let sortedReviewCards := sortCards shuffle dueReviewCards config.reviewCardOrder
  let queueNewCards := sortedNewCards.take config.maxNewCardsPerDay
  let queueReviewCards := sortedReviewCards.take config.maxReviewCardsPerDay
  let queueLearningCards := sortedLearningCards
  { newCards := queueNewCards
    learningCards := queueLearningCards
    reviewCards := queueReviewCards
    totalCards :=
      queueNewCards.length + queueLearningCards.length + queueReviewCards.length
    estimatedStudyTime :=
      estimateStudyTime queueNewCards.length queueLearningCards.length
        queueReviewCards.length }

/-- The countdown loop of QueueManager.optimizeQueue: decrement the kept
count while the projected time (the fixed other term plus the kept count
times the per-card cost) still exceeds the budget. -/
def shrinkCount (cost other budget : ℚ) : ℕ → ℕ
  | 0 => 0
  | n + 1 =>
    if budget < other + ((n : ℚ) + 1) * cost then shrinkCount cost other budget n
    else n + 1

/-- QueueManager.optimizeQueue: trim new cards first, then review cards,
to fit the time budget. -/
def optimizeQueue (queue : DailyQueue) (maxSessionTime : ℚ) : DailyQueue :=
  if (queue.estimatedStudyTime : ℚ) ≤ maxSessionTime then queue
  else
    let currentTime : ℚ := (queue.learningCards.length : ℚ) * (33/100)
    let newCardsToKeep :=
      shrinkCount (1/2) (currentTime + (queue.reviewCards.length : ℚ) * (1/4))
        maxSessionTime queue.newCards.length
    let reviewCardsToKeep :=
      shrinkCount (1/4) (currentTime + (newCardsToKeep : ℚ) * (1/2))
        maxSessionTime queue.reviewCards.length
    { queue with
        newCards := queue.newCards.take newCardsToKeep
        reviewCards := queue.reviewCards.take reviewCardsToKeep
        totalCards := queue.learningCards.length + newCardsToKeep + reviewCardsToKeep
        estimatedStudyTime :=
          ratCeil (currentTime + (newCardsToKeep : ℚ) * (1/2) +
            (reviewCardsToKeep : ℚ) * (1/4)) }

/-- CardReview from learning-session.ts. -/
structure CardReview where
  cardId : String
  response : UserResponse
  responseTime : ℚ
  timestamp : ℚ
deriving DecidableEq, Repr

/-- SessionStats from learning-session.ts, restricted to the numeric
fields the session updates. -/
structure SessionStats where
  totalCards : ℤ
  completedCards : ℤ
  newCardsLearned : ℤ
  reviewCardsCompleted : ℤ
  learningCardsCompleted : ℤ
  averageResponseTime : ℚ
  accuracyRate : ℚ
  sessionStartTime : ℚ
  studyDuration : ℤ
deriving DecidableEq, Repr

/-- The in-memory state owned by a LearningSession instance. -/
structure SessionState where
  sessionQueue : List CardData
  completedCards : List CardReview
  stats : SessionStats
  currentCardIndex : ℕ

/-- The session state right after initializeSession built the queue: a
cursor at 0, no history, zeroed counters and totalCards set to the queue
length. -/
def mkSessionState (queue : List CardData) (startTime : ℚ) : SessionState :=
  { sessionQueue := queue
    completedCards := []
    stats :=
      { totalCards := (queue.length : ℤ)
        completedCards := 0
        newCardsLearned := 0
        reviewCardsCompleted := 0
        learningCardsCompleted := 0
        averageResponseTime := 0
        accuracyRate := 0
        sessionStartTime := startTime
        studyDuration := 0 }
    currentCardIndex := 0 }

/-- LearningSession.getCurrentCard: the card at the cursor, none when the
queue is exhausted. -/
def getCurrentCard (s : SessionState) : Option CardData :=
  s.sessionQueue.get? s.currentCardIndex

/-- LearningSession.insertCardInQueue: splice the card back in after the
cursor, spacing learning cards out by a small gap. Both call sites keep
the splice index at most the queue length, where insertIdx and the JS
splice agree. -/
def insertCardInQueue (s : SessionState) (card : CardData) : SessionState :=
  let len := s.sessionQueue.length
  let insertIndex :=
    if card.status = .learning then
      let minGap := min 4 ((ratFloor ((len : ℚ) * (1/10))).toNat)
      min (s.currentCardIndex + 1 + minGap) len
    else s.currentCardIndex + 1
  { s with
      sessionQueue := s.sessionQueue.insertIdx insertIndex card
      stats := { s.stats with totalCards := s.stats.totalCards + 1 } }

/-- LearningSession.updateSessionStats, called after the review entry was
pushed onto the history. -/
def updateSessionStats (s : SessionState) (card : CardData)
    (responseTime : ℚ) (now : ℚ) : SessionState :=
  let completed := s.stats.completedCards + 1
  let stats1 := { s.stats with completedCards := completed }
  let stats2 :=
    match card.status with
    | .new => { stats1 with newCardsLearned := stats1.newCardsLearned + 1 }
    | .learning =>
      { stats1 with learningCardsCompleted := stats1.learningCardsCompleted + 1 }
    | .review =>
      { stats1 with reviewCardsCompleted := stats1.reviewCardsCompleted + 1 }
    | .suspended => stats1
  let totalResponseTime :=
    stats2.averageResponseTime * ((completed : ℚ) - 1) + responseTime
  let correctResponses :=
    (s.completedCards.filter
      (fun r => r.response == .good || r.response == .easy)).length
  { s with
      stats :=
        { stats2 with
            averageResponseTime := totalResponseTime / (completed : ℚ)
            accuracyRate := ((correctResponses : ℚ) / (completed : ℚ)) * 100
            studyDuration := ratFloor ((now - stats2.sessionStartTime) / 1000) } }

/-- The card copy spliced back into the queue, carrying the computed
update. The getD 0 stands for the undefined the JS copy would hold when
the update carries an invalid interval or due date; no claim observes
those copies. -/
def applyUpdate (card : CardData) (upd : CardUpdateResult) : CardData :=
  { card with
      status := upd.status
      ease_factor := upd.ease_factor
      interval := upd.interval.getD 0
      repetitions := upd.repetitions
      due_date := upd.due_date.getD 0 }

/-- Whether the computed update leaves the card due immediately: an
invalid due date compares false in JS. -/
def dueImmediately (upd : CardUpdateResult) (now : ℚ) : Bool :=
  match upd.due_date with
  | some d => decide (d ≤ now)
  | none => false

/-- LearningSession.processResponse, parameterized by the active
strategy function. The wall-clock reads inside it are the single tick
now. Throwing when no card is available is an Except error. -/
def processResponse
    (strat : CardData → UserResponse → ℚ → Except String CardUpdateResult)
    (s : SessionState) (response : UserResponse) (responseTime : ℚ) (now : ℚ) :
    Except String (CardUpdateResult × Option CardData × SessionState) :=
  match getCurrentCard s with
  | none => .error "No card available for response"
  | some currentCard =>
    match strat currentCard response now with
    | .error e => .error e
    | .ok updateResult =>
      let review : CardReview :=
        { cardId := currentCard.id
          response := response
          responseTime := responseTime
          timestamp := now }
      let s1 := { s with completedCards := s.completedCards ++ [review] }
      let s2 := updateSessionStats s1 currentCard responseTime now
      let s3 :=
        if updateResult.status = .learning ∧ currentCard.status = .review then
          insertCardInQueue s2 (applyUpdate currentCard updateResult)
        else s2
      let s4 :=
        if updateResult.status = .learning ∧ dueImmediately updateResult now = true then
          insertCardInQueue s3 (applyUpdate currentCard updateResult)
        else s3
      let s5 := { s4 with currentCardIndex := s4.currentCardIndex + 1 }
      .ok (updateResult, getCurrentCard s5, s5)

/-- The per-status counter decrement of undoLastReview. -/
def decrementCounter (stats : SessionStats) (status : CardStatus) : SessionStats :=
  match status with
  | .new => { stats with newCardsLearned := max 0 (stats.newCardsLearned - 1) }
  | .learning =>
    { stats with learningCardsCompleted := max 0 (stats.learningCardsCompleted - 1) }
  | .review =>
    { stats with reviewCardsCompleted := max 0 (stats.reviewCardsCompleted - 1) }
  | .suspended => stats

/-- LearningSession.undoLastReview: pop the history, move the cursor
back, reverse the counters; false on empty history or a cursor at the
start. -/
def undoLastReview (s : SessionState) : Bool × SessionState :=
  if s.completedCards.isEmpty || s.currentCardIndex == 0 then (false, s)
  else
    let s1 :=
      { s with
          completedCards := s.completedCards.dropLast
          currentCardIndex := s.currentCardIndex - 1
          stats := { s.stats with completedCards := s.stats.completedCards - 1 } }
    match s1.sessionQueue.get? s1.currentCardIndex with
    | some card => (true, { s1 with stats := decrementCounter s1.stats card.status })
    | none => (true, s1)

/-- AnkiSM2Strategy.calculateNextReview with its optional currentTime
argument: when the caller omits it, the ambient wall clock is read. -/
def ankiCalcWithClock (clock : ℚ) (cfg : AnkiConfig) (card : CardData)
    (response : UserResponse) (currentTime : Option ℚ) :
    Except String CardUpdateResult :=
  ankiCalculateNextReview cfg card response (currentTime.getD clock)

/-- LeitnerStrategy.calculateNextReview with its optional currentTime
argument: when the caller omits it, the ambient wall clock is read. -/
def leitnerCalcWithClock (clock : ℚ) (cfg : LeitnerConfig) (card : CardData)
    (response : UserResponse) (currentTime : Option ℚ) :
    Except String CardUpdateResult :=
  leitnerCalculateNextReview cfg card response (currentTime.getD clock)

/-- The next Leitner box as the claim states it for the default
configuration: promote one box on good, two on easy, demote one on hard,
reset to box 1 on again, clamped to the box range 1..5. -/
def claimNextBox (b : ℤ) (response : UserResponse) : ℤ :=
  match response with
  | .good => min (b + 1) 5
  | .easy => min (b + 2) 5
  | .hard => max (b - 1) 1
  | .again => 1

/-- The concrete card of the single-response undo scenario. -/
def undoScenarioCard : CardData :=
  { id := "w-card"
    status := .new
    ease_factor := 5/2
    interval := 1
    repetitions := 0
    due_date := 0
    last_review := none
    algorithm_data := AlgData.empty }

/-- The concrete single-response undo scenario: one processed response on
a fresh one-card session under the default Anki strategy. -/
def undoScenarioRun : Except String (CardUpdateResult × Option CardData × SessionState) :=
  processResponse (ankiCalculateNextReview DEFAULT_ANKI_CONFIG)
    (mkSessionState [undoScenarioCard] 0) .good 1000 0

/-- The update computed in the undo scenario. -/
def undoScenarioUpd : CardUpdateResult :=
  match undoScenarioRun with
  | .ok (u, _, _) => u
  | .error _ => ankiBaseResult undoScenarioCard .good 0

/-- The next card returned in the undo scenario. -/
def undoScenarioNext : Option CardData :=
  match undoScenarioRun with
  | .ok (_, n, _) => n
  | .error _ => none

/-- The session state after the one processed response of the undo
scenario. -/
def undoScenarioState : SessionState :=
  match undoScenarioRun with
  | .ok (_, _, s) => s
  | .error _ => mkSessionState [] 0

/-- The base time of the concrete queue scenario:
2024-01-15T12:00:00Z in epoch milliseconds. -/
def queueScenarioNow : ℚ := 1705320000000

/-- The input collection of the concrete queue scenario: 2 new cards due
today, 2 learning cards (one due now, one due in 10 minutes), 2 review
cards (one 1 hour overdue, one due in 2 hours). -/
def queueScenarioCards : List FlashcardRow :=
  [{ id := "new-1", status := .new, ease_factor := 5/2, interval := 1,
     repetitions := 0, due_date := queueScenarioNow,
     created_at := queueScenarioNow - 172800000 },
   { id := "new-2", status := .new, ease_factor := 5/2, interval := 1,
     repetitions := 0, due_date := queueScenarioNow,
     created_at := queueScenarioNow - 86400000 },
   { id := "learning-1", status := .learning, ease_factor := 5/2, interval := 10,
     repetitions := 0, due_date := queueScenarioNow,
     created_at := queueScenarioNow },
   { id := "learning-2", status := .learning, ease_factor := 5/2, interval := 1,
     repetitions := 0, due_date := queueScenarioNow + 600000,
     created_at := queueScenarioNow },
   { id := "review-1", status := .review, ease_factor := 23/10, interval := 7,
     repetitions := 2, due_date := queueScenarioNow - 3600000,
     created_at := queueScenarioNow },
   { id := "review-2", status := .review, ease_factor := 21/10, interval := 15,
     repetitions := 3, due_date := queueScenarioNow + 7200000,
     created_at := queueScenarioNow }]

/-- The configuration of the concrete queue scenario: maxNew 5, maxReview
10, learningAheadLimit 20 minutes, reviewAheadLimit 1 day. -/
def queueScenarioConfig : QueueConfig :=
  { maxNewCardsPerDay := 5
    maxReviewCardsPerDay := 10
    learningAheadLimit := 20
    reviewAheadLimit := 1
    newCardOrder := .created
    reviewCardOrder := .due }

/-- C1: the claimed invariant (resulting interval always positive) fails
on the code. For a valid relearning card — status learning, ease 2.5
within bounds, interval 10 (the second initial step value), repetitions
1 — the hard response looks the current step index up in the
concatenated step list (index 1) and reads the one-element relearning
list at that index, so the resulting interval is undefined (none) and
the due date is invalid, instead of a positive integer. -/
theorem c1_invariant_fails_on_relearning_hard :
    Except.map (fun u => (u.interval, u.due_date))
      (ankiCalculateNextReview DEFAULT_ANKI_CONFIG
        { id := "card-1"
          status := .learning
          ease_factor := 5/2
          interval := 10
          repetitions := 1
          due_date := 0
          last_review := none
          algorithm_data := AlgData.empty }
        .hard 0) = .ok (none, none) := by
  rfl

/-- C2: under the SM-2 defaults, a new card answered easy graduates to
review with interval 4, repetitions 1 and graduated_today true, but the
ease factor is clamped at max_ease_factor 2.5 instead of the claimed
(and unit-tested) 2.65. -/
theorem c2_new_easy_ease_clamped :
    Option.map
      (fun u => (u.status, u.ease_factor, u.interval, u.repetitions, u.graduated_today))
      (Except.toOption (ankiCalculateNextReview DEFAULT_ANKI_CONFIG
        { id := "card-1"
          status := .new
          ease_factor := 5/2
          interval := 1
          repetitions := 0
          due_date := 0
          last_review := none
          algorithm_data := AlgData.empty }
        .easy 0)) = some (.review, 5/2, some 4, 1, true) := by
  decide

/-- C7: a review card with ease 2.5, interval 6, repetitions 2 answered
good keeps status review, gets interval round(6 x 2.5) = 15 and
repetitions 3 under the SM-2 defaults. -/
theorem c7_review_good_interval_15 :
    Option.map (fun u => (u.status, u.interval, u.repetitions, u.ease_factor))
      (Except.toOption (ankiCalculateNextReview DEFAULT_ANKI_CONFIG
        { id := "card-1"
          status := .review
          ease_factor := 5/2
          interval := 6
          repetitions := 2
          due_date := 0
          last_review := none
          algorithm_data := AlgData.empty }
        .good 0)) = some (.review, some 15, 3, 5/2) := by
  decide

/-- C4: calculateNextReview of both strategies is a pure function of the
card snapshot, the response and the supplied timestamp: when the
timestamp is supplied, the ambient wall clock (read only for the omitted
default argument) does not influence the result, so two invocations with
identical inputs yield identical outputs in every field. -/
theorem c4_calculate_next_review_deterministic :
    ∀ (clock1 clock2 : ℚ) (cfgA : AnkiConfig) (cfgL : LeitnerConfig)
      (card : CardData) (response : UserResponse) (t : ℚ),
      ankiCalcWithClock clock1 cfgA card response (some t) =
        ankiCalcWithClock clock2 cfgA card response (some t) ∧
      leitnerCalcWithClock clock1 cfgL card response (some t) =
        leitnerCalcWithClock clock2 cfgL card response (some t) :=
  fun _ _ _ _ _ _ _ => ⟨rfl, rfl⟩

/-- C3 counterexample: createFromPersistedData does raise for some
persisted algorithm name — the registered placeholder simple-interval is
found by name and its factory throws. -/
theorem c3_counterexample_simple_interval_raises :
    createFromPersistedData "simple-interval" "1.0.0" SuppliedConfig.empty =
      .error "Simple Interval algorithm not yet implemented" := by
  rfl

/-- C3 (amended): createAlgorithm raises for every unregistered type,
and createFromPersistedData never raises for an unknown persisted name —
it falls back to a default Anki SM-2 instance — though for a known name
it delegates to the looked-up factory, which can still raise. -/
theorem c3_factory_error_asymmetry :
    (∀ (type : AlgorithmType) (config : Option SuppliedConfig),
        registered type = false →
        createAlgorithm type config = .error "Algorithm not registered") ∧
    (∀ (name version : String) (config : SuppliedConfig),
        getAlgorithmByName name = none →
        createFromPersistedData name version config =
          .ok (.anki (mergeAnkiConfig config))) := by
  constructor
  · intro type config h
    simp [createAlgorithm, h]
  · intro name version config h
    simp [createFromPersistedData, h, createAlgorithm, registered, registryFactory]

/-- Witness for the C3 theorem at concrete inputs: the unregistered fsrs
type raises, and an unknown persisted name falls back to Anki SM-2. -/
theorem c3_factory_error_asymmetry_witness :
    createAlgorithm .fsrs none = .error "Algorithm not registered" ∧
    createFromPersistedData "sm-18" "1.0.0" SuppliedConfig.empty =
      .ok (.anki (mergeAnkiConfig SuppliedConfig.empty)) :=
  ⟨c3_factory_error_asymmetry.1 .fsrs none (by rfl),
   c3_factory_error_asymmetry.2 "sm-18" "1.0.0" SuppliedConfig.empty (by rfl)⟩

/-- C6: for the concrete collection of 2 new cards due today, 2 learning
cards (one due now, one due in 10 minutes) and 2 review cards (one 1
hour overdue, one due in 2 hours), with maxNew 5, maxReview 10 and a 20
minute learning ahead limit, generateDailyQueue returns both learning
cards and 6 cards in total. -/
theorem c6_concrete_queue_scenario :
    (generateDailyQueue id queueScenarioCards queueScenarioConfig
        queueScenarioNow).learningCards.length = 2 ∧
    (generateDailyQueue id queueScenarioCards queueScenarioConfig
        queueScenarioNow).totalCards = 6 := by
  constructor
  · decide
  · decide

/-- Any valid card yields an ok Anki update whose algorithm_data spreads
the old bag over the freshly computed entries. -/
theorem ankiAlgDataSpread (cfg : AnkiConfig) (card : CardData)
    (response : UserResponse) (t : ℚ) (hv : validateCard card = true) :
    Except.map CardUpdateResult.algorithm_data
        (ankiCalculateNextReview cfg card response t) =
      .ok (spreadOver (ankiFreshData response t) card.algorithm_data) := by
  unfold ankiCalculateNextReview
  rw [hv]
  cases hs : card.status <;> cases response <;>
    simp [handleNewCard, handleLearningCard, handleReviewCard, ankiBaseResult,
      Except.map, apply_ite CardUpdateResult.algorithm_data]

/-- Any valid card yields an ok Leitner update whose algorithm_data
spreads the old bag over the freshly computed entries. -/
theorem leitnerAlgDataSpread (cfg : LeitnerConfig) (card : CardData)
    (response : UserResponse) (t : ℚ) (hv : validateCard card = true) :
    Except.map CardUpdateResult.algorithm_data
        (leitnerCalculateNextReview cfg card response t) =
      .ok (spreadOver
            (leitnerFreshData card response t (getCurrentBox cfg card)
              (calculateNextBox cfg (getCurrentBox cfg card) response))
            card.algorithm_data) := by
  unfold leitnerCalculateNextReview
  rw [hv]
  simp [Except.map]

/-- C10: in both strategies, the returned algorithm_data spreads the
pre-existing bag of the card over the freshly computed entries, so for
every key the card already stores (such as last_response, response_time,
algorithm_version, or the Leitner box and counters) the old value is
kept and the newly computed one is discarded. -/
theorem c10_old_algorithm_data_wins (cfgA : AnkiConfig) (cfgL : LeitnerConfig)
    (card : CardData) (k : String) (v : JsVal) (response : UserResponse) (t : ℚ)
    (hv : validateCard card = true) (h : card.algorithm_data k = some v) :
    Except.map (fun u => u.algorithm_data k)
        (ankiCalculateNextReview cfgA card response t) = .ok (some v) ∧
    Except.map (fun u => u.algorithm_data k)
        (leitnerCalculateNextReview cfgL card response t) = .ok (some v) := by
  have ha := ankiAlgDataSpread cfgA card response t hv
  have hl := leitnerAlgDataSpread cfgL card response t hv
  constructor
  · cases hx : ankiCalculateNextReview cfgA card response t with
    | error e => rw [hx] at ha; simp [Except.map] at ha
    | ok u =>
      rw [hx] at ha
      simp only [Except.map] at ha ⊢
      have hu : u.algorithm_data = spreadOver (ankiFreshData response t)
          card.algorithm_data := by
        exact Except.ok.inj ha
      simp [hu, spreadOver, h]
  · cases hx : leitnerCalculateNextReview cfgL card response t with
    | error e => rw [hx] at hl; simp [Except.map] at hl
    | ok u =>
      rw [hx] at hl
      simp only [Except.map] at hl ⊢
      have hu : u.algorithm_data = spreadOver
          (leitnerFreshData card response t (getCurrentBox cfgL card)
            (calculateNextBox cfgL (getCurrentBox cfgL card) response))
          card.algorithm_data := by
        exact Except.ok.inj hl
      simp [hu, spreadOver, h]

/-- Witness for the C10 theorem: a card that already stores a
last_response entry keeps it verbatim through both strategies. -/
theorem c10_old_algorithm_data_wins_witness :
    Except.map (fun u => u.algorithm_data "last_response")
        (ankiCalculateNextReview DEFAULT_ANKI_CONFIG
          { id := "card-1", status := .review, ease_factor := 5/2, interval := 6,
            repetitions := 2, due_date := 0, last_review := none,
            algorithm_data := AlgData.single "last_response" (.str "hard") }
          .good 7) = .ok (some (.str "hard")) ∧
    Except.map (fun u => u.algorithm_data "last_response")
        (leitnerCalculateNextReview DEFAULT_LEITNER_CONFIG
          { id := "card-1", status := .review, ease_factor := 5/2, interval := 6,
            repetitions := 2, due_date := 0, last_review := none,
            algorithm_data := AlgData.single "last_response" (.str "hard") }
          .good 7) = .ok (some (.str "hard")) :=
  c10_old_algorithm_data_wins DEFAULT_ANKI_CONFIG DEFAULT_LEITNER_CONFIG
    { id := "card-1", status := .review, ease_factor := 5/2, interval := 6,
      repetitions := 2, due_date := 0, last_review := none,
      algorithm_data := AlgData.single "last_response" (.str "hard") }
    "last_response" (.str "hard") .good 7 (by rfl) (by rfl)

/-- jsMin agrees with the order-theoretic minimum. -/
theorem jsMin_eq_min (a b : ℚ) : jsMin a b = min a b := by
  simp [jsMin, min_def]

/-- jsMax agrees with the order-theoretic maximum. -/
theorem jsMax_eq_max (a b : ℚ) : jsMax a b = max a b := by
  rw [jsMax, max_def]

/-- Reading a JS array at an integer-valued rational index agrees with
the integer index read. -/
theorem jsIndexQ_intCast (l : List ℚ) (i : ℤ) :
    jsIndexQ l ((i : ℤ) : ℚ) = jsIndex l i := by
  simp [jsIndexQ, Rat.den_intCast, Rat.num_intCast]

/-- calculateNextBox under the default Leitner configuration matches the
claimed box-transition table on integer boxes. -/
theorem calculateNextBox_default (b : ℤ) (response : UserResponse) :
    calculateNextBox DEFAULT_LEITNER_CONFIG ((b : ℤ) : ℚ) response =
      ((claimNextBox b response : ℤ) : ℚ) := by
  cases response
  case again =>
    simp [calculateNextBox, claimNextBox, DEFAULT_LEITNER_CONFIG]
  case hard =>
    simp only [calculateNextBox, claimNextBox, DEFAULT_LEITNER_CONFIG,
      jsMax_eq_max]
    push_cast
    rw [max_comm]
    norm_num
  case good =>
    simp only [calculateNextBox, claimNextBox, DEFAULT_LEITNER_CONFIG,
      jsMin_eq_min]
    push_cast
    norm_num
  case easy =>
    simp only [calculateNextBox, claimNextBox, DEFAULT_LEITNER_CONFIG,
      jsMin_eq_min]
    push_cast
    norm_num

/-- calculateStatus under the default Leitner configuration on an
integer box: box 1 is new, boxes below the graduated box 4 are learning,
the rest are review. -/
theorem calculateStatus_default (nb : ℤ) :
    calculateStatus DEFAULT_LEITNER_CONFIG ((nb : ℤ) : ℚ) =
      (if nb = 1 then CardStatus.new
       else if nb < 4 then CardStatus.learning else CardStatus.review) := by
  by_cases h1 : nb = 1
  · simp [calculateStatus, DEFAULT_LEITNER_CONFIG, h1]
  · have h1q : ((nb : ℤ) : ℚ) ≠ 1 := by exact_mod_cast h1
    by_cases h4 : nb < 4
    · have h4q : ((nb : ℤ) : ℚ) < 4 := by exact_mod_cast h4
      simp [calculateStatus, DEFAULT_LEITNER_CONFIG, h1, h1q, h4, h4q]
    · have h4q : ¬ ((nb : ℤ) : ℚ) < 4 := by exact_mod_cast h4
      simp [calculateStatus, DEFAULT_LEITNER_CONFIG, h1, h1q, h4, h4q]

/-- A card storing an in-range integer Leitner box is read back as that
box by getCurrentBox. -/
theorem getCurrentBox_of_stored (card : CardData) (b : ℤ)
    (hbox : card.algorithm_data "leitner_box" = some (.num ((b : ℤ) : ℚ)))
    (hb1 : 1 ≤ b) (hb5 : b ≤ 5) :
    getCurrentBox DEFAULT_LEITNER_CONFIG card = ((b : ℤ) : ℚ) := by
  have h1 : (1 : ℚ) ≤ ((b : ℤ) : ℚ) := by exact_mod_cast hb1
  have h5 : ((b : ℤ) : ℚ) ≤ DEFAULT_LEITNER_CONFIG.box_count := by
    show ((b : ℤ) : ℚ) ≤ ((5 : ℤ) : ℚ)
    exact_mod_cast hb5
  simp [getCurrentBox, hbox, h1, h5]

/-- C5: under the default Leitner configuration, a card in box b moves
to box min(b+1,5) on good, min(b+2,5) on easy, max(b-1,1) on hard and
box 1 on again; the returned status is new for box 1, learning below the
graduated box 4 and review at or above it; the returned interval is the
interval of the next box; and graduated_today holds exactly when the
previous box was below 4 and the next box is at or above 4. -/
theorem c5_leitner_box_transitions (card : CardData) (b : ℤ)
    (response : UserResponse) (t : ℚ)
    (hv : validateCard card = true)
    (hbox : card.algorithm_data "leitner_box" = some (.num ((b : ℤ) : ℚ)))
    (hb1 : 1 ≤ b) (hb5 : b ≤ 5) :
    calculateNextBox DEFAULT_LEITNER_CONFIG
        (getCurrentBox DEFAULT_LEITNER_CONFIG card) response =
      ((claimNextBox b response : ℤ) : ℚ) ∧
    Except.map (fun u => (u.status, u.interval, u.graduated_today))
        (leitnerCalculateNextReview DEFAULT_LEITNER_CONFIG card response t) =
      .ok ((if claimNextBox b response = 1 then CardStatus.new
            else if claimNextBox b response < 4 then CardStatus.learning
            else CardStatus.review),
           jsIndex DEFAULT_LEITNER_CONFIG.box_intervals (claimNextBox b response - 1),
           decide (b < 4 ∧ 4 ≤ claimNextBox b response)) := by
  have hcb := getCurrentBox_of_stored card b hbox hb1 hb5
  have hnb := calculateNextBox_default b response
  refine ⟨by rw [hcb]; exact hnb, ?_⟩
  unfold leitnerCalculateNextReview
  rw [hv]
  simp only [Except.map, hcb, hnb]
  have hint : jsIndexQ DEFAULT_LEITNER_CONFIG.box_intervals
      (((claimNextBox b response : ℤ) : ℚ) - 1) =
      jsIndex DEFAULT_LEITNER_CONFIG.box_intervals (claimNextBox b response - 1) := by
    rw [show (((claimNextBox b response : ℤ) : ℚ) - 1) =
        (((claimNextBox b response - 1 : ℤ) : ℚ)) by push_cast; ring]
    exact jsIndexQ_intCast _ _
  have hgb : DEFAULT_LEITNER_CONFIG.graduated_box = ((4 : ℤ) : ℚ) := by
    norm_num [DEFAULT_LEITNER_CONFIG]
  have hgrad : decide (((b : ℤ) : ℚ) < DEFAULT_LEITNER_CONFIG.graduated_box ∧
      DEFAULT_LEITNER_CONFIG.graduated_box ≤ ((claimNextBox b response : ℤ) : ℚ)) =
      decide (b < 4 ∧ 4 ≤ claimNextBox b response) := by
    rw [hgb, decide_eq_decide]
    constructor
    · rintro ⟨x, y⟩
      exact ⟨by exact_mod_cast x, by exact_mod_cast y⟩
    · rintro ⟨x, y⟩
      exact ⟨by exact_mod_cast x, by exact_mod_cast y⟩
  rw [calculateStatus_default, hint, hgrad]
  rfl

/-- Witness for the C5 theorem: a box 2 card answered good moves to box
3, stays learning, is scheduled with the box 3 interval of 7 days and
does not graduate. -/
theorem c5_leitner_box_transitions_witness :
    calculateNextBox DEFAULT_LEITNER_CONFIG
        (getCurrentBox DEFAULT_LEITNER_CONFIG
          { id := "card-1", status := .learning, ease_factor := 5/2, interval := 3,
            repetitions := 1, due_date := 0, last_review := none,
            algorithm_data := AlgData.single "leitner_box" (.num ((2 : ℤ) : ℚ)) })
        .good = ((claimNextBox 2 .good : ℤ) : ℚ) ∧
    Except.map (fun u => (u.status, u.interval, u.graduated_today))
        (leitnerCalculateNextReview DEFAULT_LEITNER_CONFIG
          { id := "card-1", status := .learning, ease_factor := 5/2, interval := 3,
            repetitions := 1, due_date := 0, last_review := none,
            algorithm_data := AlgData.single "leitner_box" (.num ((2 : ℤ) : ℚ)) }
          .good 0) =
      .ok ((if claimNextBox 2 .good = 1 then CardStatus.new
            else if claimNextBox 2 .good < 4 then CardStatus.learning
            else CardStatus.review),
           jsIndex DEFAULT_LEITNER_CONFIG.box_intervals (claimNextBox 2 .good - 1),
           decide ((2 : ℤ) < 4 ∧ 4 ≤ claimNextBox 2 .good)) :=
  c5_leitner_box_transitions
    { id := "card-1", status := .learning, ease_factor := 5/2, interval := 3,
      repetitions := 1, due_date := 0, last_review := none,
      algorithm_data := AlgData.single "leitner_box" (.num ((2 : ℤ) : ℚ)) }
    2 .good 0 (by rfl) (by rfl) (by decide) (by decide)

/-- The countdown loop only moves below n when the projected time at n
still exceeded the budget. -/
theorem shrinkCount_lt (cost other budget : ℚ) (n : ℕ)
    (h : shrinkCount cost other budget n < n) :
    budget < other + (n : ℚ) * cost := by
  induction n with
  | zero => simp [shrinkCount] at h
  | succ n ih =>
    rw [shrinkCount] at h
    split at h
    · next hc => push_cast; linarith
    · exact absurd h (lt_irrefl _)

/-- The countdown loop stops at zero or within budget. -/
theorem shrinkCount_stops (cost other budget : ℚ) (n : ℕ) :
    shrinkCount cost other budget n = 0 ∨
      other + ((shrinkCount cost other budget n : ℕ) : ℚ) * cost ≤ budget := by
  induction n with
  | zero => exact Or.inl rfl
  | succ n ih =>
    rw [shrinkCount]
    split
    · exact ih
    · next hc => right; push_cast; linarith

/-- sortCards returns a rearrangement of its input for every order. -/
theorem sortCards_perm (shuffle : List FlashcardRow → List FlashcardRow)
    (hsh : ∀ l, List.Perm (shuffle l) l) (cards : List FlashcardRow)
    (order : SortOrder) : List.Perm (sortCards shuffle cards order) cards := by
  cases order
  · exact List.perm_insertionSort _ _
  · exact List.perm_insertionSort _ _
  · exact List.perm_insertionSort _ _
  · exact hsh cards

/-- C8: generateDailyQueue caps only the new bucket (at
maxNewCardsPerDay) and the review bucket (at maxReviewCardsPerDay) —
each queue bucket draws only from the corresponding due cards — and its
learning bucket is exactly a rearrangement of all due learning cards, so
no due learning card is ever dropped; and optimizeQueue returns the
learning bucket unchanged and keeps prefixes of the new and review
buckets, removing review cards only once every new card is gone. -/
theorem c8_caps_and_learning_frame
    (shuffle : List FlashcardRow → List FlashcardRow)
    (hsh : ∀ l, List.Perm (shuffle l) l)
    (cards : List FlashcardRow) (config : QueueConfig) (t : ℚ)
    (queue : DailyQueue) (maxSessionTime : ℚ) :
    List.Perm (generateDailyQueue shuffle cards config t).learningCards
      (filterDueCards (cards.filter (fun c => c.status == .learning)) t
        (some config.learningAheadLimit)) ∧
    (generateDailyQueue shuffle cards config t).newCards.length ≤
      config.maxNewCardsPerDay ∧
    (generateDailyQueue shuffle cards config t).reviewCards.length ≤
      config.maxReviewCardsPerDay ∧
    (generateDailyQueue shuffle cards config t).newCards ⊆
      filterDueCards (cards.filter (fun c => c.status == .new)) t none ∧
    (generateDailyQueue shuffle cards config t).reviewCards ⊆
      filterDueCards (cards.filter (fun c => c.status == .review)) t
        (some (config.reviewAheadLimit * 24 * 60)) ∧
    (optimizeQueue queue maxSessionTime).learningCards = queue.learningCards ∧
    (∃ k m, (optimizeQueue queue maxSessionTime).newCards = queue.newCards.take k ∧
      (optimizeQueue queue maxSessionTime).reviewCards = queue.reviewCards.take m ∧
      (m < queue.reviewCards.length → k = 0)) := by
  refine ⟨?_, ?_, ?_, ?_, ?_, ?_, ?_⟩
  · exact sortCards_perm shuffle hsh _ .due
  · exact List.length_take_le _ _
  · exact List.length_take_le _ _
  · intro c hc
    exact (sortCards_perm shuffle hsh _ _).subset (List.mem_of_mem_take hc)
  · intro c hc
    exact (sortCards_perm shuffle hsh _ _).subset (List.mem_of_mem_take hc)
  · unfold optimizeQueue
    split
    · rfl
    · rfl
  · unfold optimizeQueue
    split
    · refine ⟨queue.newCards.length, queue.reviewCards.length,
        (List.take_length _).symm, (List.take_length _).symm, ?_⟩
      intro h
      exact absurd h (lt_irrefl _)
    · refine ⟨_, _, rfl, rfl, ?_⟩
      intro hm
      have h1 := shrinkCount_lt (1/4)
        ((queue.learningCards.length : ℚ) * (33/100) +
          ((shrinkCount (1/2)
            ((queue.learningCards.length : ℚ) * (33/100) +
              (queue.reviewCards.length : ℚ) * (1/4))
            maxSessionTime queue.newCards.length : ℕ) : ℚ) * (1/2))
        maxSessionTime queue.reviewCards.length hm
      have h2 := shrinkCount_stops (1/2)
        ((queue.learningCards.length : ℚ) * (33/100) +
          (queue.reviewCards.length : ℚ) * (1/4))
        maxSessionTime queue.newCards.length
      rcases h2 with h2 | h2
      · exact h2
      · exfalso; linarith

/-- Witness for the C8 theorem at concrete inputs: the identity shuffle,
an empty collection and an empty queue. -/
theorem c8_caps_and_learning_frame_witness :
    List.Perm (generateDailyQueue id ([] : List FlashcardRow)
        queueScenarioConfig 0).learningCards
      (filterDueCards (([] : List FlashcardRow).filter
          (fun c => c.status == .learning)) 0
        (some queueScenarioConfig.learningAheadLimit)) ∧
    (generateDailyQueue id ([] : List FlashcardRow)
        queueScenarioConfig 0).newCards.length ≤
      queueScenarioConfig.maxNewCardsPerDay ∧
    (generateDailyQueue id ([] : List FlashcardRow)
        queueScenarioConfig 0).reviewCards.length ≤
      queueScenarioConfig.maxReviewCardsPerDay ∧
    (generateDailyQueue id ([] : List FlashcardRow)
        queueScenarioConfig 0).newCards ⊆
      filterDueCards (([] : List FlashcardRow).filter
          (fun c => c.status == .new)) 0 none ∧
    (generateDailyQueue id ([] : List FlashcardRow)
        queueScenarioConfig 0).reviewCards ⊆
      filterDueCards (([] : List FlashcardRow).filter
          (fun c => c.status == .review)) 0
        (some (queueScenarioConfig.reviewAheadLimit * 24 * 60)) ∧
    (optimizeQueue (⟨[], [], [], 0, 0⟩ : DailyQueue) 0).learningCards =
      (⟨[], [], [], 0, 0⟩ : DailyQueue).learningCards ∧
    (∃ k m, (optimizeQueue (⟨[], [], [], 0, 0⟩ : DailyQueue) 0).newCards =
      (⟨[], [], [], 0, 0⟩ : DailyQueue).newCards.take k ∧
      (optimizeQueue (⟨[], [], [], 0, 0⟩ : DailyQueue) 0).reviewCards =
        (⟨[], [], [], 0, 0⟩ : DailyQueue).reviewCards.take m ∧
      (m < (⟨[], [], [], 0, 0⟩ : DailyQueue).reviewCards.length → k = 0)) :=
  c8_caps_and_learning_frame id (fun l => List.Perm.refl l) [] queueScenarioConfig 0
    (⟨[], [], [], 0, 0⟩ : DailyQueue) 0

/-- Inserting at a positive index keeps the head of the list. -/
theorem get0_insertIdx_of_pos {α : Type} (c a : α) (l : List α) (n : ℕ)
    (h : 1 ≤ n) : ((c :: l).insertIdx n a).get? 0 = some c := by
  obtain ⟨m, rfl⟩ : ∃ m, n = m + 1 := ⟨n - 1, by omega⟩
  rw [List.insertIdx_succ_cons]
  rfl

/-- insertIdx never empties a nonempty list. -/
theorem insertIdx_ne_nil {α : Type} (l : List α) (a : α) (n : ℕ)
    (h : l ≠ []) : l.insertIdx n a ≠ [] := by
  cases l with
  | nil => exact absurd rfl h
  | cons x xs =>
    cases n with
    | zero => simp [List.insertIdx_zero]
    | succ m => rw [List.insertIdx_succ_cons]; simp

/-- The queue splice of the session inserts strictly after the cursor,
so with the cursor at the start the head card stays in place. -/
theorem insertCardInQueue_get0 (s : SessionState) (c : CardData)
    (h0 : s.currentCardIndex = 0) (hne : s.sessionQueue ≠ []) :
    (insertCardInQueue s c).sessionQueue.get? 0 = s.sessionQueue.get? 0 := by
  obtain ⟨a, l, hq⟩ : ∃ a l, s.sessionQueue = a :: l := by
    cases hql : s.sessionQueue with
    | nil => exact absurd hql hne
    | cons a l => exact ⟨a, l, rfl⟩
  unfold insertCardInQueue
  dsimp only
  rw [hq, h0]
  split
  · apply get0_insertIdx_of_pos
    refine le_min (by omega) (by simp)
  · apply get0_insertIdx_of_pos
    omega

/-- The queue splice does not move the cursor. -/
theorem insertCardInQueue_idx (s : SessionState) (c : CardData) :
    (insertCardInQueue s c).currentCardIndex = s.currentCardIndex := rfl

/-- The queue splice does not touch the response history. -/
theorem insertCardInQueue_completed (s : SessionState) (c : CardData) :
    (insertCardInQueue s c).completedCards = s.completedCards := rfl

/-- The queue splice only bumps totalCards in the stats. -/
theorem insertCardInQueue_stats_completed (s : SessionState) (c : CardData) :
    (insertCardInQueue s c).stats.completedCards = s.stats.completedCards := rfl

/-- The queue splice keeps the new-card counter. -/
theorem insertCardInQueue_stats_new (s : SessionState) (c : CardData) :
    (insertCardInQueue s c).stats.newCardsLearned = s.stats.newCardsLearned := rfl

/-- The queue splice keeps the learning-card counter. -/
theorem insertCardInQueue_stats_learning (s : SessionState) (c : CardData) :
    (insertCardInQueue s c).stats.learningCardsCompleted =
      s.stats.learningCardsCompleted := rfl

/-- The queue splice keeps the review-card counter. -/
theorem insertCardInQueue_stats_review (s : SessionState) (c : CardData) :
    (insertCardInQueue s c).stats.reviewCardsCompleted =
      s.stats.reviewCardsCompleted := rfl

/-- The queue splice keeps a nonempty queue nonempty. -/
theorem insertCardInQueue_queue_ne_nil (s : SessionState) (c : CardData)
    (h : s.sessionQueue ≠ []) : (insertCardInQueue s c).sessionQueue ≠ [] := by
  unfold insertCardInQueue
  dsimp only
  exact insertIdx_ne_nil _ _ _ h

/-- A conditional queue splice keeps the head card in place when the
cursor is at the start. -/
theorem optInsert_get0 (cond : Prop) [Decidable cond] (s : SessionState)
    (c : CardData) (h0 : s.currentCardIndex = 0) (hne : s.sessionQueue ≠ []) :
    (if cond then insertCardInQueue s c else s).sessionQueue.get? 0 =
      s.sessionQueue.get? 0 := by
  split
  · exact insertCardInQueue_get0 s c h0 hne
  · rfl

/-- A conditional queue splice does not move the cursor. -/
theorem optInsert_idx (cond : Prop) [Decidable cond] (s : SessionState)
    (c : CardData) :
    (if cond then insertCardInQueue s c else s).currentCardIndex =
      s.currentCardIndex := by
  split <;> rfl

/-- A conditional queue splice does not touch the response history. -/
theorem optInsert_completed (cond : Prop) [Decidable cond] (s : SessionState)
    (c : CardData) :
    (if cond then insertCardInQueue s c else s).completedCards =
      s.completedCards := by
  split <;> rfl

/-- A conditional queue splice keeps the completed count. -/
theorem optInsert_stats_completed (cond : Prop) [Decidable cond]
    (s : SessionState) (c : CardData) :
    (if cond then insertCardInQueue s c else s).stats.completedCards =
      s.stats.completedCards := by
  split <;> rfl

/-- A conditional queue splice keeps the new-card counter. -/
theorem optInsert_stats_new (cond : Prop) [Decidable cond]
    (s : SessionState) (c : CardData) :
    (if cond then insertCardInQueue s c else s).stats.newCardsLearned =
      s.stats.newCardsLearned := by
  split <;> rfl

/-- A conditional queue splice keeps the learning-card counter. -/
theorem optInsert_stats_learning (cond : Prop) [Decidable cond]
    (s : SessionState) (c : CardData) :
    (if cond then insertCardInQueue s c else s).stats.learningCardsCompleted =
      s.stats.learningCardsCompleted := by
  split <;> rfl

/-- A conditional queue splice keeps the review-card counter. -/
theorem optInsert_stats_review (cond : Prop) [Decidable cond]
    (s : SessionState) (c : CardData) :
    (if cond then insertCardInQueue s c else s).stats.reviewCardsCompleted =
      s.stats.reviewCardsCompleted := by
  split <;> rfl

/-- A conditional queue splice keeps a nonempty queue nonempty. -/
theorem optInsert_queue_ne_nil (cond : Prop) [Decidable cond]
    (s : SessionState) (c : CardData) (h : s.sessionQueue ≠ []) :
    (if cond then insertCardInQueue s c else s).sessionQueue ≠ [] := by
  split
  · exact insertCardInQueue_queue_ne_nil s c h
  · exact h

/-- Updating the rolling stats does not change the queue. -/
theorem updateSessionStats_sessionQueue (s : SessionState) (card : CardData)
    (rt now : ℚ) : (updateSessionStats s card rt now).sessionQueue =
      s.sessionQueue := rfl

/-- Updating the rolling stats does not change the history. -/
theorem updateSessionStats_completed (s : SessionState) (card : CardData)
    (rt now : ℚ) : (updateSessionStats s card rt now).completedCards =
      s.completedCards := rfl

/-- Updating the rolling stats does not move the cursor. -/
theorem updateSessionStats_idx (s : SessionState) (card : CardData)
    (rt now : ℚ) : (updateSessionStats s card rt now).currentCardIndex =
      s.currentCardIndex := rfl

/-- Updating the rolling stats increments the completed count. -/
theorem updateSessionStats_stats_completed (s : SessionState) (card : CardData)
    (rt now : ℚ) : (updateSessionStats s card rt now).stats.completedCards =
      s.stats.completedCards + 1 := by
  cases hcs : card.status <;> simp [updateSessionStats, hcs]

/-- Updating the rolling stats increments the new-card counter exactly
for a card that was new. -/
theorem updateSessionStats_stats_new (s : SessionState) (card : CardData)
    (rt now : ℚ) : (updateSessionStats s card rt now).stats.newCardsLearned =
      s.stats.newCardsLearned + (if card.status = .new then 1 else 0) := by
  cases hcs : card.status <;> simp [updateSessionStats, hcs]

/-- Updating the rolling stats increments the learning-card counter
exactly for a card that was learning. -/
theorem updateSessionStats_stats_learning (s : SessionState) (card : CardData)
    (rt now : ℚ) :
    (updateSessionStats s card rt now).stats.learningCardsCompleted =
      s.stats.learningCardsCompleted +
        (if card.status = .learning then 1 else 0) := by
  cases hcs : card.status <;> simp [updateSessionStats, hcs]

/-- Updating the rolling stats increments the review-card counter
exactly for a card that was review. -/
theorem updateSessionStats_stats_review (s : SessionState) (card : CardData)
    (rt now : ℚ) :
    (updateSessionStats s card rt now).stats.reviewCardsCompleted =
      s.stats.reviewCardsCompleted +
        (if card.status = .review then 1 else 0) := by
  cases hcs : card.status <;> simp [updateSessionStats, hcs]

/-- The counter decrement of undo keeps the completed count. -/
theorem decrementCounter_completed (st : SessionStats) (status : CardStatus) :
    (decrementCounter st status).completedCards = st.completedCards := by
  cases status <;> rfl

/-- One undo after exactly one processed response on a card that sat at
the head of the queue restores the cursor, the completed count and every
per-status counter, and a second undo is a refused no-op. -/
theorem undo_after_one (s : SessionState) (card : CardData) (r : CardReview)
    (hq : s.sessionQueue.get? 0 = some card)
    (hcomp : s.completedCards = [r])
    (hidx : s.currentCardIndex = 1)
    (hc1 : s.stats.completedCards = 1)
    (hnew : s.stats.newCardsLearned = if card.status = .new then 1 else 0)
    (hlearn : s.stats.learningCardsCompleted =
      if card.status = .learning then 1 else 0)
    (hrev : s.stats.reviewCardsCompleted =
      if card.status = .review then 1 else 0) :
    (undoLastReview s).1 = true ∧
    (undoLastReview s).2.currentCardIndex = 0 ∧
    (undoLastReview s).2.stats.completedCards = 0 ∧
    (undoLastReview s).2.stats.newCardsLearned = 0 ∧
    (undoLastReview s).2.stats.learningCardsCompleted = 0 ∧
    (undoLastReview s).2.stats.reviewCardsCompleted = 0 ∧
    undoLastReview (undoLastReview s).2 = (false, (undoLastReview s).2) := by
  have hres : undoLastReview s =
      (true, { s with
          completedCards := []
          currentCardIndex := 0
          stats := decrementCounter
            { s.stats with completedCards := s.stats.completedCards - 1 }
            card.status }) := by
    unfold undoLastReview
    rw [hcomp, hidx]
    simp only [List.isEmpty_cons, Nat.reduceBEq, Bool.or_self, Bool.false_eq_true,
      if_false, List.dropLast_single, Nat.sub_self]
    rw [hq]
  refine ⟨by rw [hres], by rw [hres], ?_, ?_, ?_, ?_, ?_⟩
  · rw [hres]
    show (decrementCounter _ card.status).completedCards = 0
    rw [decrementCounter_completed]
    show s.stats.completedCards - 1 = 0
    omega
  · rw [hres]
    cases hcs : card.status <;>
      simp [decrementCounter, hcs, hnew, hlearn, hrev]
  · rw [hres]
    cases hcs : card.status <;>
      simp [decrementCounter, hcs, hnew, hlearn, hrev]
  · rw [hres]
    cases hcs : card.status <;>
      simp [decrementCounter, hcs, hnew, hlearn, hrev]
  · rw [hres]
    unfold undoLastReview
    simp

/-- C9: in a session whose queue starts at cursor 0 with empty history,
after exactly one processed response undoLastReview returns true and
restores the cursor and the completedCards count and every
per-originating-status counter to their initial zero values, and a
second immediate call returns false without changing any state. -/
theorem c9_undo_restores_state
    (strat : CardData → UserResponse → ℚ → Except String CardUpdateResult)
    (card : CardData) (rest : List CardData) (response : UserResponse)
    (responseTime now startTime : ℚ)
    (u : CardUpdateResult) (nc : Option CardData) (s1 : SessionState)
    (hproc : processResponse strat (mkSessionState (card :: rest) startTime)
        response responseTime now = .ok (u, nc, s1)) :
    (undoLastReview s1).1 = true ∧
    (undoLastReview s1).2.currentCardIndex = 0 ∧
    (undoLastReview s1).2.stats.completedCards = 0 ∧
    (undoLastReview s1).2.stats.newCardsLearned = 0 ∧
    (undoLastReview s1).2.stats.learningCardsCompleted = 0 ∧
    (undoLastReview s1).2.stats.reviewCardsCompleted = 0 ∧
    undoLastReview (undoLastReview s1).2 = (false, (undoLastReview s1).2) := by
  unfold processResponse at hproc
  rw [show getCurrentCard (mkSessionState (card :: rest) startTime) =
    some card from rfl] at hproc
  dsimp only at hproc
  cases hs : strat card response now with
  | error e =>
    rw [hs] at hproc
    exact absurd hproc (by simp)
  | ok upd =>
    rw [hs] at hproc
    dsimp only at hproc
    rw [Except.ok.injEq, Prod.mk.injEq, Prod.mk.injEq] at hproc
    obtain ⟨hu, hnc, hs1⟩ := hproc
    have hbase_idx : (updateSessionStats
        { mkSessionState (card :: rest) startTime with
          completedCards := (mkSessionState (card :: rest) startTime).completedCards ++
            [{ cardId := card.id, response := response,
               responseTime := responseTime, timestamp := now }] }
        card responseTime now).currentCardIndex = 0 := rfl
    have hbase_q : (updateSessionStats
        { mkSessionState (card :: rest) startTime with
          completedCards := (mkSessionState (card :: rest) startTime).completedCards ++
            [{ cardId := card.id, response := response,
               responseTime := responseTime, timestamp := now }] }
        card responseTime now).sessionQueue = card :: rest := rfl
    apply undo_after_one s1 card
      { cardId := card.id, response := response,
        responseTime := responseTime, timestamp := now }
    · rw [← hs1]
      dsimp only
      rw [optInsert_get0, optInsert_get0, hbase_q]
      · rfl
      · rw [hbase_idx]
      · rw [hbase_q]; simp
      · rw [optInsert_idx, hbase_idx]
      · apply optInsert_queue_ne_nil
        rw [hbase_q]; simp
    · rw [← hs1]
      dsimp only
      rw [optInsert_completed, optInsert_completed, updateSessionStats_completed]
      rfl
    · rw [← hs1]
      dsimp only
      rw [optInsert_idx, optInsert_idx, hbase_idx]
    · rw [← hs1]
      dsimp only
      rw [optInsert_stats_completed, optInsert_stats_completed,
        updateSessionStats_stats_completed]
      rfl
    · rw [← hs1]
      dsimp only
      rw [optInsert_stats_new, optInsert_stats_new, updateSessionStats_stats_new]
      show 0 + _ = _
      rw [zero_add]
    · rw [← hs1]
      dsimp only
      rw [optInsert_stats_learning, optInsert_stats_learning,
        updateSessionStats_stats_learning]
      show 0 + _ = _
      rw [zero_add]
    · rw [← hs1]
      dsimp only
      rw [optInsert_stats_review, optInsert_stats_review,
        updateSessionStats_stats_review]
      show 0 + _ = _
      rw [zero_add]

/-- Witness for the C9 theorem: the concrete one-card undo scenario
under the default Anki strategy. -/
theorem c9_undo_restores_state_witness :
    (undoLastReview undoScenarioState).1 = true ∧
    (undoLastReview undoScenarioState).2.currentCardIndex = 0 ∧
    (undoLastReview undoScenarioState).2.stats.completedCards = 0 ∧
    (undoLastReview undoScenarioState).2.stats.newCardsLearned = 0 ∧
    (undoLastReview undoScenarioState).2.stats.learningCardsCompleted = 0 ∧
    (undoLastReview undoScenarioState).2.stats.reviewCardsCompleted = 0 ∧
    undoLastReview (undoLastReview undoScenarioState).2 =
      (false, (undoLastReview undoScenarioState).2) :=
  c9_undo_restores_state (ankiCalculateNextReview DEFAULT_ANKI_CONFIG)
    undoScenarioCard [] .good 1000 0 0 undoScenarioUpd undoScenarioNext
    undoScenarioState (by rfl)

end AiPhrase
